import Mathlib

/-!
# Verification of the TransformerLens forward-computation core

Shallow embedding of the attention masking/softmax stage, the key/value
cache, the ALiBi bias cache, the attention output projection, the
transformer-block composition, and the construction-time configuration
dispatch of `transformer_lens` (files `components/attention.py`,
`components/transformer_block.py`, `components/mlp.py`,
`past_key_value_caching.py`).

Floating-point tensors are modelled over `ℚ`; the floating-point value
`-inf` (the `IGNORE` sentinel written into masked attention scores) is
modelled by `none` in `Option ℚ`, and the strictly positive exponential
used by softmax is an abstract parameter `E : ℚ → ℚ` together with the
positivity hypothesis `∀ x, 0 < E x`.
-/

namespace TransformerLens

/-! ## Key/value cache (`past_key_value_caching.py`)

`HookedTransformerKeyValueCacheEntry` holds `past_keys` and `past_values`,
tensors of shape `[batch, pos_so_far, n_heads, d_head]`, concatenated along
the position axis (`dim=1`) by `append`.  We model each per-position slice
(a `[batch, n_heads, d_head]` block) as an element of an abstract type `α`,
so a tensor is a `List α` indexed by position, and `torch.cat` along the
position axis is list append. -/

structure KVEntry (α : Type) where
  past_keys : List α
  past_values : List α
  frozen : Bool
  deriving Repr, DecidableEq

/-- `HookedTransformerKeyValueCacheEntry.append` (lines 33–47): computes
`updated_keys = cat([past_keys, new_keys])` and
`updated_values = cat([past_values, new_values])`, stores them on the entry
only when the entry is not frozen, and returns the pair in every case.
The updated entry is returned as the first component (explicit state
passing for the Python in-place mutation). -/
def KVEntry.append {α : Type} (e : KVEntry α) (new_keys new_values : List α) :
    KVEntry α × List α × List α :=
  let updated_keys := e.past_keys ++ new_keys
  let updated_values := e.past_values ++ new_values
  let e' := if e.frozen then e
    else { e with past_keys := updated_keys, past_values := updated_values }
  (e', updated_keys, updated_values)

/-- One `append` call viewed as a state transformer (used to talk about
repeated calls on a frozen entry). -/
def KVEntry.appendState {α : Type} (new_keys new_values : List α) (e : KVEntry α) :
    KVEntry α :=
  (e.append new_keys new_values).1

/-! ## Causal mask (`components/attention.py`, `__init__` lines 75–91 and
`apply_causal_mask` lines 306–334)

`__init__` builds `causal_mask = torch.tril(torch.ones(n_ctx, n_ctx))`,
i.e. entry `(q, k)` is `True` iff `k ≤ q`; for `attn_type == "local"` the
buffer is `torch.triu(causal_mask, 1 - window_size)`, keeping entry
`(q, k)` iff `k - q ≥ 1 - window_size`, i.e. `k ≤ q ∧ q - k < window_size`.
`apply_causal_mask` slices the last `query_ctx_length` rows and the last
`key_ctx_length` columns (back-to-front indexing), optionally multiplies in
the caller's padding `attention_mask` over the key axis, and writes the
`IGNORE` sentinel (`-inf`, here `none`) into every masked score. -/

/-- Entry `(q, k)` of the mask buffer registered at construction:
lower-triangular for global attention, banded for local attention. -/
def causal_mask_entry (isLocal : Bool) (window_size : ℕ) (q k : ℕ) : Bool :=
  if isLocal then decide (k ≤ q) && decide (q - k < window_size)
  else decide (k ≤ q)

/-- Entry `(i, j)` of `final_mask = mask[None, None, -query_ctx_length:,
-key_ctx_length:]`, then multiplied elementwise by the padding
`attention_mask` over the key axis when one is supplied (`.bool()` of the
product is: causal-mask entry AND mask nonzero at key `j`). -/
def final_mask_entry (n_ctx qlen klen : ℕ) (isLocal : Bool) (window_size : ℕ)
    (attention_mask : Option (ℕ → Bool)) (i j : ℕ) : Bool :=
  causal_mask_entry isLocal window_size (n_ctx - qlen + i) (n_ctx - klen + j) &&
    (match attention_mask with
     | none => true
     | some am => am j)

/-- `torch.where(final_mask, attn_scores, self.IGNORE)`: the masked score
matrix, with `none` standing for the `-inf` sentinel. -/
def mask_scores (n_ctx qlen klen : ℕ) (isLocal : Bool) (window_size : ℕ)
    (attention_mask : Option (ℕ → Bool)) (scores : ℕ → ℕ → ℚ) (i j : ℕ) :
    Option ℚ :=
  if final_mask_entry n_ctx qlen klen isLocal window_size attention_mask i j then
    some (scores i j)
  else none

/-- The f-string of the assertion in `apply_causal_mask` (lines 320–322). -/
def causal_mask_assert_msg (query_ctx_length past_kv_pos_offset key_ctx_length : ℕ) :
    String :=
  "query_ctx_length " ++ toString query_ctx_length ++
    " + past_kv_pos_offset " ++ toString past_kv_pos_offset ++
    " != key_ctx_length " ++ toString key_ctx_length ++ " - you likely have a bug."

/-- `Attention.apply_causal_mask`: asserts
`query_ctx_length + past_kv_pos_offset == key_ctx_length` (an
`AssertionError` carrying the diagnostic message otherwise), then returns
the masked score matrix. -/
def apply_causal_mask (n_ctx : ℕ) (isLocal : Bool) (window_size : ℕ)
    (qlen klen past_kv_pos_offset : ℕ) (attention_mask : Option (ℕ → Bool))
    (scores : ℕ → ℕ → ℚ) : Except String (ℕ → ℕ → Option ℚ) :=
  if qlen + past_kv_pos_offset = klen then
    .ok (mask_scores n_ctx qlen klen isLocal window_size attention_mask scores)
  else
    .error (causal_mask_assert_msg qlen past_kv_pos_offset klen)

/-! ## Softmax with NaN replacement (`Attention.forward` lines 258–262)

`pattern = F.softmax(attn_scores, dim=-1)` followed by
`pattern = torch.where(torch.isnan(pattern), zeros_like(pattern), pattern)`.
Softmax of a row is `exp xⱼ / Σₖ exp xₖ` with `exp (-inf) = 0`; the row is
NaN exactly when the denominator is `0`, i.e. when every entry of the row
is the `-inf` sentinel, and those NaNs are replaced by `0`. -/

/-- `exp` extended to the `-inf` sentinel: `exp (-inf) = 0`. -/
def expOpt (E : ℚ → ℚ) : Option ℚ → ℚ
  | none => 0
  | some x => E x

/-- Softmax over the key axis (`n` keys) of one masked-score row, with the
NaN row (denominator `0`, i.e. fully masked row) replaced by zeros. -/
def softmaxRow (E : ℚ → ℚ) (n : ℕ) (row : ℕ → Option ℚ) (j : ℕ) : ℚ :=
  let Z := ∑ k ∈ Finset.range n, expOpt E (row k)
  if Z = 0 then 0 else expOpt E (row j) / Z

/-! ## Output projection (`Attention.forward` lines 273–303)

With `use_attn_result` off, the output is the single einsum
`z[b,p,h,d] · W_O[h,d,m]` contracting the `(head_index, d_head)` index pair
(a sum over the product index set), plus `b_O`.  With it on, the unsummed
per-head `result[b,p,h,m] = Σ_d z·W_O` is materialized first (for the
`hook_result` hook) and then reduced by summing over the head index, plus
`b_O`. -/

/-- The materialized per-head result tensor
`result[b, p, h, m] = Σ_d z[b, p, h, d] * W_O[h, d, m]`. -/
def attn_result (n_dhead : ℕ) (z : ℕ → ℕ → ℕ → ℕ → ℚ) (W_O : ℕ → ℕ → ℕ → ℚ)
    (b p h m : ℕ) : ℚ :=
  ∑ d ∈ Finset.range n_dhead, z b p h d * W_O h d m

/-- The value returned by `Attention.forward` at output index `(b, p, m)`,
as a function of the pattern-weighted values `z`, with the branch on
`cfg.use_attn_result` as in the source. -/
def attn_output (use_attn_result : Bool) (n_heads n_dhead : ℕ)
    (z : ℕ → ℕ → ℕ → ℕ → ℚ) (W_O : ℕ → ℕ → ℕ → ℚ) (b_O : ℕ → ℚ)
    (b p m : ℕ) : ℚ :=
  if use_attn_result then
    (∑ h ∈ Finset.range n_heads, attn_result n_dhead z W_O b p h m) + b_O m
  else
    (∑ hd ∈ Finset.range n_heads ×ˢ Finset.range n_dhead,
        z b p hd.1 hd.2 * W_O hd.1 hd.2 m) + b_O m

/-! ## ALiBi bias cache (`Attention.create_alibi_slope` lines 418–458,
`create_alibi_bias` lines 499–546, `get_cached_alibi` lines 548–566)

`create_alibi_slope` builds the matrix `(rows - cols).clamp(max=0)`, i.e.
entry `(q, k)` is `min (k - q) 0`.  `create_alibi_bias` multiplies it by
the per-head scalar multipliers `start * start ** h` with
`start = 2 ** (-8 / n_heads)`; those multipliers are irrational real
powers computed in floating point, so the per-head multiplier is kept as
an abstract parameter `m : ℕ → ℚ` of the model.  The cached table carries
its key-context size, the value of `cached_alibi.size(-1)`. -/

/-- Entry `(q, k)` of the ALiBi slope matrix
`(rows - cols).clamp(max=0)`. -/
def create_alibi_slope (q k : ℕ) : ℚ :=
  ((min ((k : ℤ) - (q : ℤ)) 0 : ℤ) : ℚ)

/-- The ALiBi bias tensor of shape `[head_idx, n_ctx, n_ctx]` together
with its key-axis size `size(-1)`. -/
structure AlibiTable where
  size : ℕ
  bias : ℕ → ℕ → ℕ → ℚ

/-- `Attention.create_alibi_bias(n_heads, n_ctx)`:
`einsum("ij,k->kij", slope, multipliers)`, with the per-head multiplier
sequence abstracted as `m`. -/
def create_alibi_bias (m : ℕ → ℚ) (n_ctx : ℕ) : AlibiTable :=
  { size := n_ctx, bias := fun h q k => m h * create_alibi_slope q k }

/-- `cached_alibi.size(-1)` of the optional cached table (`0` when unset). -/
def alibi_cache_size : Option AlibiTable → ℕ
  | none => 0
  | some t => t.size

/-- `Attention.get_cached_alibi(key_ctx)`: recompute the table (at size
`key_ctx`) when no table is cached or `key_ctx > cached_alibi.size(-1)`,
otherwise return the cached table unchanged.  Returns the served table and
the new cache state. -/
def get_cached_alibi (m : ℕ → ℚ) (cached : Option AlibiTable) (key_ctx : ℕ) :
    AlibiTable × Option AlibiTable :=
  match cached with
  | none =>
      let t := create_alibi_bias m key_ctx
      (t, some t)
  | some t =>
      if key_ctx > t.size then
        let t' := create_alibi_bias m key_ctx
        (t', some t')
      else (t, some t)

/-! ## Transformer block composition (`components/transformer_block.py`,
`forward` lines 88–193)

Residual-stream tensors live in an abstract additive commutative monoid
`R`.  Hooks are identity pass-throughs and are dropped; the model covers
the non-split input path (`use_split_qkv_input = use_attn_in = false`),
where `query_input = key_input = value_input = resid_pre`.  The attention
call receives `ln1 query_input + shortformer_pos_embed` (with `0.0` when no
shortformer embedding is supplied) for queries and keys and
`ln1 value_input` for values.  The second component of the result is the
`resid_mid` tensor when one is produced (`hook_resid_mid` only exists on
the sequential path) and `none` otherwise. -/

/-- `TransformerBlock.forward` on the non-split path: returns
`(resid_post, resid_mid?)` following the source's three-way branch on
`attn_only` and `parallel_attn_mlp`. -/
def block_forward {R : Type} [AddCommMonoid R] (attn_only parallel_attn_mlp : Bool)
    (ln1 ln2 : R → R) (attn : R → R → R → R) (mlp : R → R)
    (shortformer_pos_embed : Option R) (resid_pre : R) : R × Option R :=
  let pe := shortformer_pos_embed.getD 0
  let attn_out := attn (ln1 resid_pre + pe) (ln1 resid_pre + pe) (ln1 resid_pre)
  if !attn_only && !parallel_attn_mlp then
    let resid_mid := resid_pre + attn_out
    (resid_mid + mlp (ln2 resid_mid), some resid_mid)
  else if parallel_attn_mlp then
    (resid_pre + attn_out + mlp (ln2 resid_pre), none)
  else
    (resid_pre + attn_out, none)

/-! ## Construction-time configuration dispatch
(`Attention.__init__` lines 79–89, `MLP.__init__` lines 39–59,
`TransformerBlock.__init__` lines 36–72)

Python exceptions are modelled by `Except`: `raise ValueError(msg)` is
`.error (.valueError msg)` and a failing `assert` is
`.error .assertionError`.  `cfg.window_size` is `Optional[int]`, modelled
by `Option ℤ` with `none` for the non-integer (`None`) case of
`assert isinstance(self.cfg.window_size, int)`. -/

inductive InitError where
  | valueError (msg : String)
  | assertionError
  deriving Repr, DecidableEq

/-- The mask buffer registered by `Attention.__init__`: lower-triangular
for `"global"`, banded by `window_size` for `"local"`. -/
inductive MaskKind where
  | global
  | localBand (window_size : ℤ)
  deriving Repr, DecidableEq

/-- The `attn_type` dispatch in `Attention.__init__`: `"global"` registers
the lower-triangular mask; `"local"` asserts the window size is an integer
and registers the banded mask; anything else raises
`ValueError(f"Invalid attention type: {attn_type}")`. -/
def attention_init (attn_type : String) (window_size : Option ℤ) :
    Except InitError MaskKind :=
  if attn_type = "global" then .ok .global
  else if attn_type = "local" then
    match window_size with
    | some w => .ok (.localBand w)
    | none => .error .assertionError
  else .error (.valueError ("Invalid attention type: " ++ attn_type))

/-- The normalization layers a block constructs. -/
inductive NormKind where
  | LN
  | LNPre
  | RMS
  | RMSPre
  | ident
  deriving Repr, DecidableEq

/-- The `normalization_type` dispatch in `TransformerBlock.__init__`
(lines 36–60): the four recognized names and `None` select a layer; any
other name only calls `logging.warning(...)` and leaves `ln1`/`ln2` unset.
Returns the selected layer kind (or `none` when unset) and whether the
warning fired. -/
def choose_norm (normalization_type : Option String) : Option NormKind × Bool :=
  match normalization_type with
  | none => (some .ident, false)
  | some s =>
      if s = "LN" then (some .LN, false)
      else if s = "LNPre" then (some .LNPre, false)
      else if s = "RMS" then (some .RMS, false)
      else if s = "RMSPre" then (some .RMSPre, false)
      else (none, true)

/-- The `act_fn` dispatch in `MLP.__init__` (lines 39–59): the six
recognized names succeed; any other raises
`ValueError(f"Invalid activation function name: {act_fn}")`. -/
def mlp_init (act_fn : String) : Except InitError Unit :=
  if act_fn = "relu" then .ok ()
  else if act_fn = "gelu" then .ok ()
  else if act_fn = "silu" then .ok ()
  else if act_fn = "gelu_new" then .ok ()
  else if act_fn = "gelu_fast" then .ok ()
  else if act_fn = "solu_ln" then .ok ()
  else .error (.valueError ("Invalid activation function name: " ++ act_fn))

/-- The configuration fields `TransformerBlock.__init__` dispatches on
(non-gated MLP, single global/local attention type). -/
structure BlockCfg where
  normalization_type : Option String
  attn_only : Bool
  act_fn : String
  attn_type : String
  window_size : Option ℤ
  deriving Repr, DecidableEq

/-- The constructed block state relevant to configuration dispatch. -/
structure Block where
  ln1 : Option NormKind
  norm_warned : Bool
  mask : MaskKind
  has_mlp : Bool
  deriving Repr, DecidableEq

/-- `TransformerBlock.__init__`: normalization dispatch (which never
raises — unrecognized names only warn), then `Attention` construction,
then `MLP` construction unless `attn_only`; an exception from a
sub-constructor propagates. -/
def transformer_block_init (cfg : BlockCfg) : Except InitError Block :=
  let (ln1, warned) := choose_norm cfg.normalization_type
  match attention_init cfg.attn_type cfg.window_size with
  | .error e => .error e
  | .ok mask =>
      if cfg.attn_only then
        .ok { ln1 := ln1, norm_warned := warned, mask := mask, has_mlp := false }
      else
        match mlp_init cfg.act_fn with
        | .error e => .error e
        | .ok _ =>
            .ok { ln1 := ln1, norm_warned := warned, mask := mask, has_mlp := true }

/-! ## Helper lemmas -/

/-- The extended exponential is nonnegative when `E` is positive. -/
theorem expOpt_nonneg (E : ℚ → ℚ) (hE : ∀ x, 0 < E x) (o : Option ℚ) :
    0 ≤ expOpt E o := by
  cases o with
  | none => exact le_refl 0
  | some x => exact (hE x).le

/-- The extended exponential of the `-inf` sentinel is `0`. -/
theorem expOpt_none (E : ℚ → ℚ) : expOpt E none = 0 := rfl

/-! ## Claim theorems -/

/-- C3: `append` always returns the full concatenation of the stored
history with the new keys/values along the position axis, regardless of
the frozen flag; the stored history is updated to that concatenation iff
the entry is not frozen; and after freezing, any number of repeated
`append` calls leaves the stored entry unchanged while each call still
returns the correct concatenated view. -/
theorem kv_append_spec {α : Type} (e : KVEntry α) (nk nv : List α) :
    (e.append nk nv).2.1 = e.past_keys ++ nk ∧
    (e.append nk nv).2.2 = e.past_values ++ nv ∧
    (e.append nk nv).1 =
      (if e.frozen then e
       else { e with past_keys := e.past_keys ++ nk,
                     past_values := e.past_values ++ nv }) ∧
    (e.frozen = true →
      ∀ n : ℕ, (KVEntry.appendState nk nv)^[n] e = e ∧
        ((KVEntry.appendState nk nv)^[n] e).append nk nv
          = (e, e.past_keys ++ nk, e.past_values ++ nv)) := by
  refine ⟨rfl, rfl, rfl, ?_⟩
  intro hf n
  have hfix : KVEntry.appendState nk nv e = e := by
    simp [KVEntry.appendState, KVEntry.append, hf]
  have hiter : (KVEntry.appendState nk nv)^[n] e = e := by
    induction n with
    | zero => rfl
    | succ n ih => rw [Function.iterate_succ_apply', ih, hfix]
  refine ⟨hiter, ?_⟩
  rw [hiter]
  simp [KVEntry.append, hf]

/-- C3 witness: a concrete frozen entry. -/
theorem kv_append_spec_witness :
    ((KVEntry.mk ([1] : List ℕ) [2] true).frozen = true) ∧
    ((KVEntry.mk ([1] : List ℕ) [2] true).append [3] [4]).2.1 = [1, 3] ∧
    (KVEntry.appendState [3] [4])^[5] (KVEntry.mk ([1] : List ℕ) [2] true)
      = KVEntry.mk [1] [2] true :=
  ⟨rfl, (kv_append_spec (KVEntry.mk ([1] : List ℕ) [2] true) [3] [4]).1,
   ((kv_append_spec (KVEntry.mk ([1] : List ℕ) [2] true) [3] [4]).2.2.2 rfl 5).1⟩

/-- C4: for an unfrozen entry, appending zero new positions returns the
existing history unchanged, and appending `nk1` then `nk2` yields the same
final stored history as appending `nk1 ++ nk2` in one call. -/
theorem kv_append_empty_assoc {α : Type} (e : KVEntry α)
    (nk1 nv1 nk2 nv2 : List α) (hf : e.frozen = false) :
    (e.append [] []).2.1 = e.past_keys ∧
    (e.append [] []).2.2 = e.past_values ∧
    ((e.append nk1 nv1).1.append nk2 nv2).1
      = (e.append (nk1 ++ nk2) (nv1 ++ nv2)).1 := by
  refine ⟨by simp [KVEntry.append], by simp [KVEntry.append], ?_⟩
  simp [KVEntry.append, hf]

/-- C4 witness: a concrete unfrozen entry. -/
theorem kv_append_empty_assoc_witness :
    ((KVEntry.mk ([1] : List ℕ) [2] false).frozen = false) ∧
    ((KVEntry.mk ([1] : List ℕ) [2] false).append [] []).2.1 = [1] ∧
    (((KVEntry.mk ([1] : List ℕ) [2] false).append [3] [4]).1.append [5] [6]).1
      = ((KVEntry.mk ([1] : List ℕ) [2] false).append [3, 5] [4, 6]).1 :=
  ⟨rfl,
   (kv_append_empty_assoc (KVEntry.mk ([1] : List ℕ) [2] false) [3] [4] [5] [6]
      rfl).1,
   (kv_append_empty_assoc (KVEntry.mk ([1] : List ℕ) [2] false) [3] [4] [5] [6]
      rfl).2.2⟩

/-- C10: `Attention.__init__` raises `ValueError` for an `attn_type` other
than `"global"` or `"local"`, fails its assertion for `"local"` without an
integer window size, and succeeds for `"global"` and for well-configured
`"local"`. -/
theorem attention_init_spec (attn_type : String) (window_size : Option ℤ) :
    (attn_type ≠ "global" → attn_type ≠ "local" →
      attention_init attn_type window_size
        = .error (.valueError ("Invalid attention type: " ++ attn_type))) ∧
    (attention_init "local" none = .error .assertionError) ∧
    (attention_init "global" window_size = .ok .global) ∧
    (∀ w : ℤ, attention_init "local" (some w) = .ok (.localBand w)) := by
  refine ⟨?_, rfl, rfl, fun w => rfl⟩
  intro h1 h2
  simp [attention_init, h1, h2]

/-- C10 witness: the unrecognized attention type `"sliding"`. -/
theorem attention_init_spec_witness :
    ("sliding" ≠ "global") ∧ ("sliding" ≠ "local") ∧
    (attention_init "sliding" none
      = .error (.valueError ("Invalid attention type: " ++ "sliding"))) :=
  ⟨by decide, by decide,
   (attention_init_spec "sliding" none).1 (by decide) (by decide)⟩

/-- C5 counterexample: constructing a block with the unrecognized
normalization type `"BatchNorm"` (and otherwise valid configuration)
completes normally, returning a block rather than raising — the
construction is not fatal as claimed. -/
theorem block_init_bad_norm_completes :
    transformer_block_init
        { normalization_type := some "BatchNorm", attn_only := false,
          act_fn := "relu", attn_type := "global", window_size := none }
      = .ok { ln1 := none, norm_warned := true, mask := .global,
              has_mlp := true } := rfl

/-- C5 (amended): an unrecognized normalization-type selector is reported
immediately by a warning but is not fatal; provided the other
sub-constructors succeed, construction completes normally with the warning
recorded and no normalization layer set. -/
theorem block_init_unknown_norm_warns (cfg : BlockCfg) (s : String)
    (hnt : cfg.normalization_type = some s)
    (h1 : s ≠ "LN") (h2 : s ≠ "LNPre") (h3 : s ≠ "RMS") (h4 : s ≠ "RMSPre")
    (mask : MaskKind)
    (hattn : attention_init cfg.attn_type cfg.window_size = .ok mask)
    (hmlp : cfg.attn_only = false → mlp_init cfg.act_fn = .ok ()) :
    transformer_block_init cfg
      = .ok { ln1 := none, norm_warned := true, mask := mask,
              has_mlp := !cfg.attn_only } := by
  have hcn : choose_norm cfg.normalization_type = (none, true) := by
    rw [hnt]; simp [choose_norm, h1, h2, h3, h4]
  cases hao : cfg.attn_only with
  | false => simp [transformer_block_init, hcn, hattn, hao, hmlp hao]
  | true => simp [transformer_block_init, hcn, hattn, hao]

/-- C5 witness: concrete unrecognized normalization type with valid
attention and MLP configuration. -/
theorem block_init_unknown_norm_warns_witness :
    (("GroupNorm" : String) ≠ "LN" ∧ ("GroupNorm" : String) ≠ "LNPre" ∧
     ("GroupNorm" : String) ≠ "RMS" ∧ ("GroupNorm" : String) ≠ "RMSPre") ∧
    transformer_block_init
        { normalization_type := some "GroupNorm", attn_only := false,
          act_fn := "gelu", attn_type := "global", window_size := none }
      = .ok { ln1 := none, norm_warned := true, mask := .global,
              has_mlp := true } :=
  ⟨⟨by decide, by decide, by decide, by decide⟩,
   block_init_unknown_norm_warns
     { normalization_type := some "GroupNorm", attn_only := false,
       act_fn := "gelu", attn_type := "global", window_size := none }
     "GroupNorm" rfl (by decide) (by decide) (by decide) (by decide)
     .global rfl (fun _ => rfl)⟩

/-- C6: the ALiBi bias cache is recomputed only when the required key
context exceeds the cached table's size: the cached size never shrinks
across a call, the served table always covers `key_ctx`, a sufficiently
large cached table is returned unchanged with the cache state untouched,
and any change of the cache state implies the old table was too small. -/
theorem get_cached_alibi_spec (m : ℕ → ℚ) (cached : Option AlibiTable)
    (key_ctx : ℕ) :
    alibi_cache_size cached
        ≤ alibi_cache_size (get_cached_alibi m cached key_ctx).2 ∧
    key_ctx ≤ alibi_cache_size (get_cached_alibi m cached key_ctx).2 ∧
    (∀ t, cached = some t → key_ctx ≤ t.size →
      get_cached_alibi m cached key_ctx = (t, some t)) ∧
    (∀ t, cached = some t → (get_cached_alibi m cached key_ctx).2 ≠ cached →
      t.size < key_ctx) := by
  cases cached with
  | none =>
      refine ⟨?_, ?_, ?_, ?_⟩
      · simp [get_cached_alibi, alibi_cache_size]
      · simp [get_cached_alibi, alibi_cache_size, create_alibi_bias]
      · intro t ht; cases ht
      · intro t ht; cases ht
  | some t =>
      by_cases hgt : t.size < key_ctx
      · have hres : get_cached_alibi m (some t) key_ctx
            = (create_alibi_bias m key_ctx, some (create_alibi_bias m key_ctx)) := by
          simp [get_cached_alibi, hgt]
        rw [hres]
        refine ⟨?_, ?_, ?_, ?_⟩
        · simp [alibi_cache_size, create_alibi_bias]; omega
        · simp [alibi_cache_size, create_alibi_bias]
        · intro t' ht' hle
          injection ht' with h
          subst h
          exact absurd hle (by omega)
        · intro t' ht' _
          injection ht' with h
          subst h
          exact hgt
      · have hres : get_cached_alibi m (some t) key_ctx = (t, some t) := by
          simp [get_cached_alibi, hgt]
        rw [hres]
        refine ⟨le_refl _, ?_, ?_, ?_⟩
        · simp [alibi_cache_size]; omega
        · intro t' ht' _
          injection ht' with h
          subst h
          rfl
        · intro t' ht' hne
          exact absurd rfl hne

/-- C6 witness: a cached table of size `3` queried at key context `2` is
reused unchanged. -/
theorem get_cached_alibi_spec_witness :
    ((some (AlibiTable.mk 3 (fun _ _ _ => 0))
        = some (AlibiTable.mk 3 (fun _ _ _ => 0))) ∧
     2 ≤ (AlibiTable.mk 3 (fun _ _ _ => 0)).size) ∧
    get_cached_alibi (fun _ => 1) (some (AlibiTable.mk 3 (fun _ _ _ => 0))) 2
      = (AlibiTable.mk 3 (fun _ _ _ => 0),
         some (AlibiTable.mk 3 (fun _ _ _ => 0))) :=
  ⟨⟨rfl, by decide⟩,
   (get_cached_alibi_spec (fun _ => 1)
      (some (AlibiTable.mk 3 (fun _ _ _ => 0))) 2).2.2.1
     (AlibiTable.mk 3 (fun _ _ _ => 0)) rfl (by decide)⟩

/-- C2: for any positive exponential, the post-softmax row of masked
scores is all exactly zero when every key of the row is masked (the NaN
row replaced by zeros), and sums to exactly `1` when at least one key is
unmasked. -/
theorem softmax_row_spec (E : ℚ → ℚ) (hE : ∀ x, 0 < E x) (n : ℕ)
    (row : ℕ → Option ℚ) :
    ((∀ k, k < n → row k = none) → ∀ j, softmaxRow E n row j = 0) ∧
    ((∃ k, k < n ∧ row k ≠ none) →
      ∑ j ∈ Finset.range n, softmaxRow E n row j = 1) := by
  constructor
  · intro hall j
    have hZ : ∑ k ∈ Finset.range n, expOpt E (row k) = 0 :=
      Finset.sum_eq_zero fun k hk => by
        rw [hall k (Finset.mem_range.mp hk)]
        rfl
    simp [softmaxRow, hZ]
  · rintro ⟨k, hk, hne⟩
    have hpos : 0 < ∑ j ∈ Finset.range n, expOpt E (row j) := by
      refine Finset.sum_pos' (fun i _ => expOpt_nonneg E hE (row i))
        ⟨k, Finset.mem_range.mpr hk, ?_⟩
      cases hrow : row k with
      | none => exact absurd hrow hne
      | some x => simpa [expOpt, hrow] using hE x
    have hZ : (∑ j ∈ Finset.range n, expOpt E (row j)) ≠ 0 := ne_of_gt hpos
    simp only [softmaxRow, hZ, if_false]
    rw [← Finset.sum_div, div_self hZ]

/-- C2 witness: a two-key row with its first key unmasked sums to `1`. -/
theorem softmax_row_spec_witness :
    (∀ x : ℚ, 0 < (fun _ : ℚ => (1 : ℚ)) x) ∧
    ((0 : ℕ) < 2 ∧ (fun k : ℕ => if k = 0 then some (0 : ℚ) else none) 0 ≠ none) ∧
    ∑ j ∈ Finset.range 2,
        softmaxRow (fun _ => 1) 2 (fun k => if k = 0 then some 0 else none) j
      = 1 :=
  ⟨fun _ => one_pos, ⟨by decide, by decide⟩,
   (softmax_row_spec (fun _ => 1) (fun _ => one_pos) 2
      (fun k => if k = 0 then some 0 else none)).2 ⟨0, by decide, by decide⟩⟩

/-- C1: under the `apply_causal_mask` length contract
(`qlen + offset = klen` with both lengths within `n_ctx`), a nonzero
post-softmax attention weight at query `i`, key `j` implies `j ≤ i +
offset`, and additionally `i + offset − j < window_size` for local
attention; every masked position holds the `-inf` sentinel before the
softmax; and the back-to-front indexed mask with a cache offset agrees
with the offset-free mask at the shifted query position. -/
theorem causal_mask_softmax_support (E : ℚ → ℚ)
    (n_ctx qlen klen offset window_size : ℕ) (isLocal : Bool)
    (am : Option (ℕ → Bool)) (scores : ℕ → ℕ → ℚ) (i j : ℕ)
    (hq : qlen ≤ n_ctx) (hk : klen ≤ n_ctx) (hlen : qlen + offset = klen)
    (hi : i < qlen) (hj : j < klen) :
    (softmaxRow E klen
        (mask_scores n_ctx qlen klen isLocal window_size am scores i) j ≠ 0 →
      j ≤ i + offset ∧ (isLocal = true → i + offset - j < window_size)) ∧
    (final_mask_entry n_ctx qlen klen isLocal window_size am i j = false →
      mask_scores n_ctx qlen klen isLocal window_size am scores i j = none) ∧
    (final_mask_entry n_ctx qlen klen isLocal window_size none i j
      = final_mask_entry n_ctx klen klen isLocal window_size none (i + offset) j) := by
  refine ⟨?_, ?_, ?_⟩
  · intro hnz
    cases hfm : final_mask_entry n_ctx qlen klen isLocal window_size am i j with
    | false =>
        exfalso
        apply hnz
        have hnone :
            mask_scores n_ctx qlen klen isLocal window_size am scores i j = none := by
          simp [mask_scores, hfm]
        simp [softmaxRow, hnone, expOpt]
    | true =>
        have hsplit := hfm
        simp only [final_mask_entry, Bool.and_eq_true] at hsplit
        have hcm := hsplit.1
        cases isLocal with
        | false =>
            simp only [causal_mask_entry, if_false, decide_eq_true_eq,
              Bool.false_eq_true] at hcm
            exact ⟨by omega, fun h => absurd h (by simp)⟩
        | true =>
            simp only [causal_mask_entry, if_true, Bool.and_eq_true,
              decide_eq_true_eq] at hcm
            exact ⟨by omega, fun _ => by omega⟩
  · intro hfm
    simp [mask_scores, hfm]
  · have hidx : n_ctx - qlen + i = n_ctx - klen + (i + offset) := by omega
    simp [final_mask_entry, hidx]

/-- C1 witness: local attention with window `2`, `n_ctx = 4`, two queries
over three keys with cache offset `1`; the weight at query `1`, key `2`
is nonzero and inside the band. -/
theorem causal_mask_softmax_support_witness :
    ((2 : ℕ) ≤ 4 ∧ (3 : ℕ) ≤ 4 ∧ 2 + 1 = 3 ∧ (1 : ℕ) < 2 ∧ (2 : ℕ) < 3) ∧
    (softmaxRow (fun _ => (1 : ℚ)) 3
        (mask_scores 4 2 3 true 2 none (fun _ _ => 0) 1) 2 ≠ 0) ∧
    ((2 : ℕ) ≤ 1 + 1 ∧ (true = true → 1 + 1 - 2 < 2)) :=
  ⟨⟨by decide, by decide, by decide, by decide, by decide⟩,
   by
     simp [softmaxRow, mask_scores, final_mask_entry, causal_mask_entry,
       expOpt, Finset.sum_range_succ],
   (causal_mask_softmax_support (fun _ => (1 : ℚ)) 4 2 3 1 2 true none
      (fun _ _ => 0) 1 2 (by decide) (by decide) (by decide) (by decide)
      (by decide)).1
     (by
       simp [softmaxRow, mask_scores, final_mask_entry, causal_mask_entry,
         expOpt, Finset.sum_range_succ])⟩

/-- C7: `apply_causal_mask` succeeds exactly when the query context length
plus the cache offset equals the key context length; otherwise it fails
with the assertion message naming the three mismatched quantities. -/
theorem apply_causal_mask_assert (n_ctx : ℕ) (isLocal : Bool)
    (window_size qlen klen offset : ℕ) (am : Option (ℕ → Bool))
    (scores : ℕ → ℕ → ℚ) :
    (qlen + offset = klen →
      apply_causal_mask n_ctx isLocal window_size qlen klen offset am scores
        = .ok (mask_scores n_ctx qlen klen isLocal window_size am scores)) ∧
    (qlen + offset ≠ klen →
      apply_causal_mask n_ctx isLocal window_size qlen klen offset am scores
        = .error (causal_mask_assert_msg qlen offset klen)) := by
  constructor <;> intro h <;> simp [apply_causal_mask, h]

/-- C7 witness: the mismatch `2 + 1 ≠ 5` fails with the diagnostic
message, and the matching `2 + 1 = 3` succeeds. -/
theorem apply_causal_mask_assert_witness :
    ((2 : ℕ) + 1 ≠ 5) ∧
    (apply_causal_mask 8 false 0 2 5 1 none (fun _ _ => (0 : ℚ))
      = .error (causal_mask_assert_msg 2 1 5)) ∧
    (causal_mask_assert_msg 2 1 5
      = "query_ctx_length 2 + past_kv_pos_offset 1 != key_ctx_length 5 - you likely have a bug.") :=
  ⟨by decide,
   (apply_causal_mask_assert 8 false 0 2 5 1 none (fun _ _ => (0 : ℚ))).2
     (by decide),
   rfl⟩

/-- C8: the output projection returns the same tensor whether the per-head
result is materialized and then summed over heads (`use_attn_result` on)
or the head and `d_head` indices are contracted in a single einsum
(`use_attn_result` off). -/
theorem attn_output_flag_equiv (n_heads n_dhead : ℕ)
    (z : ℕ → ℕ → ℕ → ℕ → ℚ) (W_O : ℕ → ℕ → ℕ → ℚ) (b_O : ℕ → ℚ)
    (b p m : ℕ) :
    attn_output true n_heads n_dhead z W_O b_O b p m
      = attn_output false n_heads n_dhead z W_O b_O b p m := by
  simp [attn_output, attn_result, Finset.sum_product]

/-- C9: with parallel attention/MLP composition (and an MLP present), the
attention branch reads `ln1` of the un-normalized incoming residual, the
feed-forward branch reads `ln2` of the same un-normalized residual, the
output is the original residual plus both branch outputs, and no `mid`
residual state is produced. -/
theorem block_parallel_spec {R : Type} [AddCommMonoid R]
    (ln1 ln2 : R → R) (attn : R → R → R → R) (mlp : R → R)
    (pe : Option R) (resid_pre : R) :
    block_forward false true ln1 ln2 attn mlp pe resid_pre
      = (resid_pre
           + attn (ln1 resid_pre + pe.getD 0) (ln1 resid_pre + pe.getD 0)
               (ln1 resid_pre)
           + mlp (ln2 resid_pre),
         none) := rfl

end TransformerLens
